import Mathlib

/-!
Shallow embedding of the repository investpy_portfolio, file
src/investpy_portfolio/StockPortfolio.py.

Modelling decisions:
* Python floats (prices, cost per share, gross values) are modelled as
  exact rationals (Rat); Python ints as Int.
* The external collaborators are abstracted as pure functions:
  - the instrument catalog consulted by Stock.validate is a boolean
    oracle on the stock (catalog : Stock -> Bool);
  - investpy.get_historical_data together with the ambient current date
    is a provider function from (equity name, country, from-date) to the
    chronologically ordered list of daily records.
* Raised exceptions are modelled by dedicated result constructors that
  carry the portfolio state as it stands when the exception escapes
  (Python mutates in place, so the state reached before the raise is
  observable afterwards).
* A pandas.DataFrame built from the row dictionaries is modelled as the
  list of rows itself; the attribute data : Option (List StockInfo)
  distinguishes the initial None from a built (possibly empty) frame.
* refresh additionally returns the number of provider round trips made,
  so that "performs no provider calls" is statable.
-/

/-- One holding, mirroring the Stock class of the repository
(fields as set by its constructor plus the valid flag set by validate). -/
structure Stock where
  stock_name : String
  stock_country : String
  purchase_date : String
  num_of_shares : Int
  cost_per_share : Rat
  valid : Bool
deriving DecidableEq, Repr

/-- Modelled from the spec: the Stock class itself is not under src/ (only
StockPortfolio.py is). Per spec section 4.1, construction "accepts instrument
name, market/country, purchase date string, share count, cost per share" and
"performs no I/O at construction time"; the valid flag is not yet set. -/
def Stock.build (stock_name stock_country purchase_date : String)
    (num_of_shares : Int) (cost_per_share : Rat) : Stock :=
  { stock_name := stock_name, stock_country := stock_country,
    purchase_date := purchase_date, num_of_shares := num_of_shares,
    cost_per_share := cost_per_share, valid := false }

/-- Modelled from the spec: Stock.validate is not under src/. Per spec
section 4.1 it "checks that the instrument name and market/country resolve
to a known instrument via the external instrument catalog"; its side effect
"sets an internal valid/invalid flag; does not raise on invalid input".
The external catalog is abstracted as a boolean oracle on the stock. -/
def Stock.validate (catalog : Stock → Bool) (s : Stock) : Stock :=
  { s with valid := catalog s }

/-- One daily record of a historical price series, with (at least) its
closing price: the Close column of the DataFrame returned by
investpy.get_historical_data. -/
structure PriceRow where
  Close : Rat
deriving DecidableEq, Repr

/-- The external historical price provider: investpy.get_historical_data
together with the ambient current date, abstracted as a pure function of
(equity name, country, from-date) returning the chronologically ordered
daily records. An empty list models "no usable data for the range". -/
abbrev Provider := String → String → String → List PriceRow

/-- The row dictionary built by StockPortfolio.__get_stock_info. -/
structure StockInfo where
  stock_name : String
  stock_country : String
  purchase_date : String
  num_of_shares : Int
  cost_per_share : Rat
  current_price : Rat
  gross_current_value : Rat
deriving DecidableEq, Repr

/-- The three attributes set by StockPortfolio.__init__: the row list
_stocks, the holdings list _stock_objs, and the tabular snapshot data
(None until first assigned a DataFrame). -/
structure StockPortfolio where
  _stocks : List StockInfo
  _stock_objs : List Stock
  data : Option (List StockInfo)
deriving DecidableEq, Repr

/-- StockPortfolio.__init__: all attributes restored to empty / None. -/
def StockPortfolio.init : StockPortfolio :=
  { _stocks := [], _stock_objs := [], data := none }

/-- StockPortfolio.current_price (static method): the last Close value
indexed in the DataFrame, data.iloc[-1]['Close']. On an empty frame the
Python expression raises (IndexError); modelled as none. -/
def StockPortfolio.current_price (data : List PriceRow) : Option Rat :=
  (data.getLast?).map PriceRow.Close

/-- StockPortfolio.gross_current_value (static method):
float(current_price * num_of_shares). -/
def StockPortfolio.gross_current_value (current_price : Rat)
    (num_of_shares : Int) : Rat :=
  current_price * num_of_shares

/-- StockPortfolio.__get_stock_info: fetch the historical series for the
stock from its purchase date to today, take the current price, and build
the row dictionary. A fetch yielding no usable data (empty series) makes
current_price raise in Python; modelled as none. -/
def StockPortfolio.get_stock_info (provider : Provider) (stock : Stock) :
    Option StockInfo :=
  let data := provider stock.stock_name stock.stock_country stock.purchase_date
  match StockPortfolio.current_price data with
  | none => none
  | some curr_price =>
      some { stock_name := stock.stock_name,
             stock_country := stock.stock_country,
             purchase_date := stock.purchase_date,
             num_of_shares := stock.num_of_shares,
             cost_per_share := stock.cost_per_share,
             current_price := curr_price,
             gross_current_value :=
               StockPortfolio.gross_current_value curr_price stock.num_of_shares }

/-- Outcome of StockPortfolio.add_stock. Each constructor carries the
portfolio state as observable after the call returns or the exception
escapes: ok for normal return, invalidStock for the ValueError raised when
stock.valid is not True, dataUnavailable for an exception escaping from
__get_stock_info (no usable data). -/
inductive AddResult where
  | ok (p : StockPortfolio)
  | invalidStock (p : StockPortfolio)
  | dataUnavailable (p : StockPortfolio)
deriving DecidableEq, Repr

/-- StockPortfolio.add_stock: build the Stock, validate it; if valid,
append it to _stock_objs, fetch its info (which may raise), append the row
to _stocks and rebuild data; otherwise raise ValueError. Note the order:
the Stock is appended to _stock_objs before the fetch is attempted. -/
def StockPortfolio.add_stock (catalog : Stock → Bool) (provider : Provider)
    (self : StockPortfolio) (stock_name stock_country purchase_date : String)
    (num_of_shares : Int) (cost_per_share : Rat) : AddResult :=
  let stock := Stock.validate catalog
    (Stock.build stock_name stock_country purchase_date num_of_shares cost_per_share)
  if stock.valid = true then
    let self1 := { self with _stock_objs := self._stock_objs ++ [stock] }
    match StockPortfolio.get_stock_info provider stock with
    | none => AddResult.dataUnavailable self1
    | some info =>
        let stocks1 := self1._stocks ++ [info]
        AddResult.ok { self1 with _stocks := stocks1, data := some stocks1 }
  else
    AddResult.invalidStock self

/-- Outcome of StockPortfolio.refresh: ok for normal return,
dataUnavailable for an exception escaping mid-loop from __get_stock_info. -/
inductive RefreshResult where
  | ok (p : StockPortfolio)
  | dataUnavailable (p : StockPortfolio)
deriving DecidableEq, Repr

/-- The for-loop of StockPortfolio.refresh: process the holdings in order,
appending each recomputed row to the accumulator (the fresh _stocks list).
Returns the _stocks list as it stands when the loop ends or the exception
escapes, a success flag, and the number of provider calls made. -/
def StockPortfolio.refresh_loop (provider : Provider) :
    List Stock → List StockInfo → Nat → List StockInfo × Bool × Nat
  | [], acc, calls => (acc, true, calls)
  | stock_obj :: rest, acc, calls =>
      match StockPortfolio.get_stock_info provider stock_obj with
      | none => (acc, false, calls + 1)
      | some info =>
          StockPortfolio.refresh_loop provider rest (acc ++ [info]) (calls + 1)

/-- StockPortfolio.refresh: if any holdings exist, reset _stocks to the
empty list, recompute every row in insertion order, and rebuild data at the
end; a mid-loop exception escapes with _stocks holding the rows rebuilt so
far and data untouched. Also returns the number of provider calls made. -/
def StockPortfolio.refresh (provider : Provider) (self : StockPortfolio) :
    RefreshResult × Nat :=
  if self._stock_objs.length > 0 then
    match StockPortfolio.refresh_loop provider self._stock_objs [] 0 with
    | (stocks1, true, calls) =>
        (RefreshResult.ok { self with _stocks := stocks1, data := some stocks1 },
         calls)
    | (stocks1, false, calls) =>
        (RefreshResult.dataUnavailable { self with _stocks := stocks1 }, calls)
  else
    (RefreshResult.ok self, 0)

/-- The validated stock that add_stock builds from its five arguments. -/
def stockOf (catalog : Stock → Bool) (stock_name stock_country purchase_date : String)
    (num_of_shares : Int) (cost_per_share : Rat) : Stock :=
  Stock.validate catalog
    (Stock.build stock_name stock_country purchase_date num_of_shares cost_per_share)

/-- Specification helper: the rows obtained by computing __get_stock_info
for each holding in order, all succeeding (none if any fetch fails). -/
def mapInfos (provider : Provider) : List Stock → Option (List StockInfo)
  | [] => some []
  | s :: rest =>
      match StockPortfolio.get_stock_info provider s with
      | none => none
      | some info => (mapInfos provider rest).map (fun l => info :: l)

/-- The lockstep invariant: the row list is exactly the per-holding
recomputation of the holdings list under the given provider. -/
def rowsMatch (provider : Provider) (p : StockPortfolio) : Prop :=
  mapInfos provider p._stock_objs = some p._stocks

/-- Argument tuple of one add_stock call. -/
structure AddArgs where
  stock_name : String
  stock_country : String
  purchase_date : String
  num_of_shares : Int
  cost_per_share : Rat
deriving DecidableEq, Repr

/-- The validated stock built from an argument tuple. -/
def argStock (catalog : Stock → Bool) (a : AddArgs) : Stock :=
  stockOf catalog a.stock_name a.stock_country a.purchase_date
    a.num_of_shares a.cost_per_share

/-- A sequence of add_stock calls, each required to succeed
(none as soon as one fails). -/
def add_all (catalog : Stock → Bool) (provider : Provider) :
    StockPortfolio → List AddArgs → Option StockPortfolio
  | p, [] => some p
  | p, a :: rest =>
      match StockPortfolio.add_stock catalog provider p a.stock_name
          a.stock_country a.purchase_date a.num_of_shares a.cost_per_share with
      | AddResult.ok p1 => add_all catalog provider p1 rest
      | _ => none

/-! ## Concrete fixtures used to instantiate the theorems -/

/-- A catalog that accepts every (name, country, date) triple. -/
def catalogAll : Stock → Bool := fun _ => true

/-- A catalog that rejects every triple. -/
def catalogNone : Stock → Bool := fun _ => false

/-- A provider with no data for any request (delisted instrument). -/
def providerBad : Provider := fun _ _ _ => []

/-- A provider returning a two-day series ending at close 150. -/
def providerG : Provider := fun _ _ _ => [{ Close := 100 }, { Close := 150 }]

/-- A provider with no data for the equity named A and a one-day series at
close 150 for everything else. -/
def providerAB : Provider := fun nm _ _ =>
  if nm = "A" then [] else [{ Close := 150 }]

/-- The validated stock built from the ACME arguments under catalogAll. -/
def stockACME : Stock :=
  { stock_name := "ACME", stock_country := "US", purchase_date := "01/01/2020",
    num_of_shares := 10, cost_per_share := 100, valid := true }

/-- The row for stockACME under providerG (close 150, 10 shares). -/
def infoACME : StockInfo :=
  { stock_name := "ACME", stock_country := "US", purchase_date := "01/01/2020",
    num_of_shares := 10, cost_per_share := 100, current_price := 150,
    gross_current_value := 1500 }

/-- The state after a failed (no data) add of ACME on a fresh portfolio:
the holding is recorded but no row and no snapshot. -/
def P1bad : StockPortfolio :=
  { _stocks := [], _stock_objs := [stockACME], data := none }

/-- The state holding the ACME row, as produced by a successful add of
ACME under providerG or by a successful refresh of P1bad. -/
def P2w : StockPortfolio :=
  { _stocks := [infoACME], _stock_objs := [stockACME], data := some [infoACME] }

/-- The validated stock built from the A arguments under catalogAll. -/
def stockAce : Stock :=
  { stock_name := "A", stock_country := "US", purchase_date := "01/01/2020",
    num_of_shares := 1, cost_per_share := 100, valid := true }

/-- The validated stock built from the B arguments under catalogAll. -/
def stockBce : Stock :=
  { stock_name := "B", stock_country := "US", purchase_date := "01/01/2020",
    num_of_shares := 2, cost_per_share := 100, valid := true }

/-- The row for stockBce at close 150 (2 shares, gross 300). -/
def infoBce : StockInfo :=
  { stock_name := "B", stock_country := "US", purchase_date := "01/01/2020",
    num_of_shares := 2, cost_per_share := 100, current_price := 150,
    gross_current_value := 300 }

/-- The row for stockAce at close 150 (1 share, gross 150). -/
def infoAce : StockInfo :=
  { stock_name := "A", stock_country := "US", purchase_date := "01/01/2020",
    num_of_shares := 1, cost_per_share := 100, current_price := 150,
    gross_current_value := 150 }

/-- The state after a failed (no data) add of A on a fresh portfolio. -/
def P1ce : StockPortfolio :=
  { _stocks := [], _stock_objs := [stockAce], data := none }

/-- The state after a subsequent successful add of B on P1ce: two holdings
but a single row. -/
def P2ce : StockPortfolio :=
  { _stocks := [infoBce], _stock_objs := [stockAce, stockBce],
    data := some [infoBce] }

/-- A portfolio holding B then A with both rows and a built snapshot. -/
def Pab : StockPortfolio :=
  { _stocks := [infoBce, infoAce], _stock_objs := [stockBce, stockAce],
    data := some [infoBce, infoAce] }

/-- The state left by a refresh of Pab under providerAB, whose fetch for A
fails after the row for B was rebuilt: _stocks truncated to the rebuilt
prefix, data untouched. -/
def Pab1 : StockPortfolio :=
  { _stocks := [infoBce], _stock_objs := [stockBce, stockAce],
    data := some [infoBce, infoAce] }

/-- The ACME argument tuple. -/
def argsACME : AddArgs :=
  { stock_name := "ACME", stock_country := "US", purchase_date := "01/01/2020",
    num_of_shares := 10, cost_per_share := 100 }

/-- The B argument tuple. -/
def argsB : AddArgs :=
  { stock_name := "B", stock_country := "US", purchase_date := "01/01/2020",
    num_of_shares := 2, cost_per_share := 100 }

/-- The state after successfully adding ACME then B under providerG. -/
def P5w : StockPortfolio :=
  { _stocks := [infoACME, infoBce], _stock_objs := [stockACME, stockBce],
    data := some [infoACME, infoBce] }

/-! ## Helper lemmas -/

/-- add_stock unfolded into its three outcome shapes. -/
theorem add_stock_cases (catalog : Stock → Bool) (provider : Provider)
    (p : StockPortfolio) (nm co pd : String) (n : Int) (c : Rat) :
    StockPortfolio.add_stock catalog provider p nm co pd n c =
      if (stockOf catalog nm co pd n c).valid = true then
        match StockPortfolio.get_stock_info provider (stockOf catalog nm co pd n c) with
        | none => AddResult.dataUnavailable
            { p with _stock_objs := p._stock_objs ++ [stockOf catalog nm co pd n c] }
        | some info => AddResult.ok
            { _stocks := p._stocks ++ [info],
              _stock_objs := p._stock_objs ++ [stockOf catalog nm co pd n c],
              data := some (p._stocks ++ [info]) }
      else AddResult.invalidStock p := rfl

/-- Shape of a successful add_stock call. -/
theorem add_stock_ok_eq {catalog : Stock → Bool} {provider : Provider}
    {p : StockPortfolio} {nm co pd : String} {n : Int} {c : Rat} {p1 : StockPortfolio}
    (h : StockPortfolio.add_stock catalog provider p nm co pd n c = AddResult.ok p1) :
    ∃ info, StockPortfolio.get_stock_info provider (stockOf catalog nm co pd n c) = some info ∧
      (stockOf catalog nm co pd n c).valid = true ∧
      p1 = { _stocks := p._stocks ++ [info],
             _stock_objs := p._stock_objs ++ [stockOf catalog nm co pd n c],
             data := some (p._stocks ++ [info]) } := by
  rw [add_stock_cases] at h
  split at h
  · split at h
    · simp at h
    · next info hinfo =>
        injection h with h1
        exact ⟨info, hinfo, by assumption, h1.symm⟩
  · simp at h

/-- Shape of an add_stock call failing on data availability: the holding
has already been appended, rows and snapshot untouched. -/
theorem add_stock_dataUnavailable_eq {catalog : Stock → Bool} {provider : Provider}
    {p : StockPortfolio} {nm co pd : String} {n : Int} {c : Rat} {p1 : StockPortfolio}
    (h : StockPortfolio.add_stock catalog provider p nm co pd n c =
      AddResult.dataUnavailable p1) :
    StockPortfolio.get_stock_info provider (stockOf catalog nm co pd n c) = none ∧
    (stockOf catalog nm co pd n c).valid = true ∧
    p1 = { p with _stock_objs := p._stock_objs ++ [stockOf catalog nm co pd n c] } := by
  rw [add_stock_cases] at h
  split at h
  · split at h
    · next hinfo =>
        injection h with h1
        exact ⟨hinfo, by assumption, h1.symm⟩
    · simp at h
  · simp at h

/-- Shape of an add_stock call failing validation: state unchanged. -/
theorem add_stock_invalid_eq {catalog : Stock → Bool} {provider : Provider}
    {p : StockPortfolio} {nm co pd : String} {n : Int} {c : Rat} {p1 : StockPortfolio}
    (h : StockPortfolio.add_stock catalog provider p nm co pd n c =
      AddResult.invalidStock p1) :
    (stockOf catalog nm co pd n c).valid = false ∧ p1 = p := by
  rw [add_stock_cases] at h
  split at h
  · split at h
    · simp at h
    · simp at h
  · next hval =>
      injection h with h1
      exact ⟨Bool.not_eq_true _ ▸ Bool.of_not_eq_true hval, h1.symm⟩

/-- Row lists produced by mapInfos have one row per holding. -/
theorem mapInfos_length {provider : Provider} {objs : List Stock}
    {infos : List StockInfo} (h : mapInfos provider objs = some infos) :
    infos.length = objs.length := by
  induction objs generalizing infos with
  | nil =>
      rw [mapInfos] at h
      injection h with h1
      simp [← h1]
  | cons s rest ih =>
      rw [mapInfos] at h
      cases hg : StockPortfolio.get_stock_info provider s with
      | none => rw [hg] at h; simp at h
      | some info =>
          rw [hg] at h
          cases hr : mapInfos provider rest with
          | none => rw [hr] at h; simp at h
          | some l =>
              rw [hr] at h
              simp only [Option.map_some] at h
              injection h with h1
              simp [← h1, ih hr]

/-- The i-th row produced by mapInfos is the one computed from the i-th
holding (and both sides are none past the end). -/
theorem mapInfos_getElem {provider : Provider} {objs : List Stock}
    {infos : List StockInfo} (h : mapInfos provider objs = some infos) :
    ∀ i : Nat,
      (objs[i]?).bind (StockPortfolio.get_stock_info provider) = infos[i]? := by
  induction objs generalizing infos with
  | nil =>
      intro i
      rw [mapInfos] at h
      injection h with h1
      simp [← h1]
  | cons s rest ih =>
      intro i
      rw [mapInfos] at h
      cases hg : StockPortfolio.get_stock_info provider s with
      | none => rw [hg] at h; simp at h
      | some info =>
          rw [hg] at h
          cases hr : mapInfos provider rest with
          | none => rw [hr] at h; simp at h
          | some l =>
              rw [hr] at h
              simp only [Option.map_some] at h
              injection h with h1
              cases i with
              | zero => simp [← h1, hg]
              | succ j => simpa [← h1] using ih hr j

/-- mapInfos over a list extended by one holding whose fetch succeeds. -/
theorem mapInfos_append_single {provider : Provider} {objs : List Stock}
    {infos : List StockInfo} {s : Stock} {info : StockInfo}
    (h1 : mapInfos provider objs = some infos)
    (h2 : StockPortfolio.get_stock_info provider s = some info) :
    mapInfos provider (objs ++ [s]) = some (infos ++ [info]) := by
  induction objs generalizing infos with
  | nil =>
      rw [mapInfos] at h1
      injection h1 with h1
      simp [mapInfos, h2, ← h1]
  | cons a rest ih =>
      rw [mapInfos] at h1
      cases hg : StockPortfolio.get_stock_info provider a with
      | none => rw [hg] at h1; simp at h1
      | some ia =>
          rw [hg] at h1
          cases hr : mapInfos provider rest with
          | none => rw [hr] at h1; simp at h1
          | some l =>
              rw [hr] at h1
              simp only [Option.map_some] at h1
              injection h1 with h1
              rw [List.cons_append, mapInfos, hg, ih hr]
              simp [← h1]

/-- A successful run of the refresh loop computes exactly the mapInfos
rows, appended to the accumulator. -/
theorem refresh_loop_ok_eq {provider : Provider} {objs : List Stock}
    {acc res : List StockInfo} {n c : Nat}
    (h : StockPortfolio.refresh_loop provider objs acc n = (res, true, c)) :
    ∃ infos, mapInfos provider objs = some infos ∧ res = acc ++ infos := by
  induction objs generalizing acc n with
  | nil =>
      rw [StockPortfolio.refresh_loop] at h
      simp only [Prod.mk.injEq] at h
      exact ⟨[], rfl, by simp [← h.1]⟩
  | cons s rest ih =>
      rw [StockPortfolio.refresh_loop] at h
      cases hg : StockPortfolio.get_stock_info provider s with
      | none => rw [hg] at h; simp at h
      | some info =>
          rw [hg] at h
          obtain ⟨infos, hm, hres⟩ := ih h
          exact ⟨info :: infos, by rw [mapInfos, hg, hm]; rfl,
            by simp [hres]⟩

/-- Conversely, when every fetch succeeds the refresh loop returns the
mapInfos rows and makes one provider call per holding. -/
theorem mapInfos_refresh_loop {provider : Provider} {objs : List Stock}
    {infos : List StockInfo} (h : mapInfos provider objs = some infos)
    (acc : List StockInfo) (n : Nat) :
    StockPortfolio.refresh_loop provider objs acc n =
      (acc ++ infos, true, n + objs.length) := by
  induction objs generalizing infos acc n with
  | nil =>
      rw [mapInfos] at h
      injection h with h1
      simp [StockPortfolio.refresh_loop, ← h1]
  | cons s rest ih =>
      rw [mapInfos] at h
      cases hg : StockPortfolio.get_stock_info provider s with
      | none => rw [hg] at h; simp at h
      | some info =>
          rw [hg] at h
          cases hr : mapInfos provider rest with
          | none => rw [hr] at h; simp at h
          | some l =>
              rw [hr] at h
              simp only [Option.map_some] at h
              injection h with h1
              rw [StockPortfolio.refresh_loop, hg]
              show StockPortfolio.refresh_loop provider rest (acc ++ [info]) (n + 1) = _
              rw [ih hr (acc ++ [info]) (n + 1)]
              simp only [Prod.mk.injEq, List.length_cons]
              refine ⟨?_, trivial, by omega⟩
              simp [← h1]

/-- Shape of a successful refresh call: either the portfolio had no
holdings and nothing happened, or every row was recomputed. -/
theorem refresh_ok_eq {provider : Provider} {p p1 : StockPortfolio} {calls : Nat}
    (h : StockPortfolio.refresh provider p = (RefreshResult.ok p1, calls)) :
    (p._stock_objs = [] ∧ p1 = p ∧ calls = 0) ∨
    (p._stock_objs ≠ [] ∧ ∃ infos,
       mapInfos provider p._stock_objs = some infos ∧
       p1 = { p with _stocks := infos, data := some infos } ∧
       calls = p._stock_objs.length) := by
  unfold StockPortfolio.refresh at h
  split at h
  · next hpos =>
      have hne : p._stock_objs ≠ [] := by
        intro he
        rw [he] at hpos
        simp at hpos
      split at h
      · next stocks1 calls1 heq =>
          simp only [Prod.mk.injEq] at h
          obtain ⟨h1, h2⟩ := h
          injection h1 with h1
          obtain ⟨infos, hm, hres⟩ := refresh_loop_ok_eq heq
          have hrun := mapInfos_refresh_loop hm [] 0
          rw [heq] at hrun
          simp only [Prod.mk.injEq, List.nil_append, Nat.zero_add] at hrun
          refine Or.inr ⟨hne, infos, hm, ?_, ?_⟩
          · rw [← h1, hres]
            simp
          · omega
      · next stocks1 calls1 heq =>
          simp at h
  · next hpos =>
      have he : p._stock_objs = [] := by
        rcases List.eq_nil_or_concat p._stock_objs with he | ⟨l, a, he⟩
        · exact he
        · exfalso
          apply hpos
          rw [he]
          simp
      simp only [Prod.mk.injEq] at h
      obtain ⟨h1, h2⟩ := h
      injection h1 with h1
      exact Or.inl ⟨he, h1.symm, h2.symm⟩

/-- When every fetch succeeds on a non-empty holdings list, refresh
rebuilds the rows and snapshot from mapInfos. -/
theorem refresh_of_mapInfos {provider : Provider} {p : StockPortfolio}
    {infos : List StockInfo} (hne : p._stock_objs ≠ [])
    (h : mapInfos provider p._stock_objs = some infos) :
    StockPortfolio.refresh provider p =
      (RefreshResult.ok { p with _stocks := infos, data := some infos },
       p._stock_objs.length) := by
  unfold StockPortfolio.refresh
  rw [if_pos (List.length_pos.mpr hne), mapInfos_refresh_loop h [] 0]
  simp

/-- Shape of a refresh call failing mid-loop: holdings and snapshot
untouched, rows replaced by the rebuilt prefix. -/
theorem refresh_fail_eq {provider : Provider} {p p1 : StockPortfolio} {calls : Nat}
    (h : StockPortfolio.refresh provider p =
      (RefreshResult.dataUnavailable p1, calls)) :
    p1._stock_objs = p._stock_objs ∧ p1.data = p.data := by
  unfold StockPortfolio.refresh at h
  split at h
  · split at h
    · simp at h
    · next stocks1 calls1 heq =>
        simp only [Prod.mk.injEq] at h
        obtain ⟨h1, h2⟩ := h
        injection h1 with h1
        rw [← h1]
        exact ⟨rfl, rfl⟩
  · simp at h

/-- Shape of a successful add_all run: holdings extended by the validated
stocks, rows extended by their mapInfos rows. -/
theorem add_all_ok_eq {catalog : Stock → Bool} {provider : Provider} :
    ∀ {args : List AddArgs} {p p1 : StockPortfolio},
      add_all catalog provider p args = some p1 →
      ∃ infos, mapInfos provider (args.map (argStock catalog)) = some infos ∧
        p1._stock_objs = p._stock_objs ++ args.map (argStock catalog) ∧
        p1._stocks = p._stocks ++ infos := by
  intro args
  induction args with
  | nil =>
      intro p p1 h
      rw [add_all] at h
      injection h with h1
      exact ⟨[], by rw [List.map_nil, mapInfos], by simp [← h1], by simp [← h1]⟩
  | cons a rest ih =>
      intro p p1 h
      rw [add_all] at h
      cases hadd : StockPortfolio.add_stock catalog provider p a.stock_name
          a.stock_country a.purchase_date a.num_of_shares a.cost_per_share with
      | ok p2 =>
          rw [hadd] at h
          obtain ⟨info, hg, hv, hp2⟩ := add_stock_ok_eq hadd
          obtain ⟨infos, hm, ho, hs⟩ := ih h
          refine ⟨info :: infos, ?_, ?_, ?_⟩
          · rw [List.map_cons, mapInfos]
            have : argStock catalog a = stockOf catalog a.stock_name
               a.stock_country a.purchase_date a.num_of_shares a.cost_per_share := rfl
            rw [this, hg, hm]
            rfl
          · rw [ho, hp2]
            simp [argStock]
          · rw [hs, hp2]
            simp
      | invalidStock p2 => rw [hadd] at h; simp at h
      | dataUnavailable p2 => rw [hadd] at h; simp at h

/-! ## Claim theorems -/

/-- C1 (amended): a failed add_stock leaves the row list and the tabular
snapshot unchanged; when validation rejects the holding the whole state is
unchanged, but when the price provider returns no usable data after
validation succeeded, the holding has already been appended to the
holdings list and stays there. -/
theorem add_stock_failure_frame (catalog : Stock → Bool) (provider : Provider)
    (p : StockPortfolio) (nm co pd : String) (n : Int) (c : Rat) :
    (∀ p1, StockPortfolio.add_stock catalog provider p nm co pd n c =
        AddResult.invalidStock p1 → p1 = p) ∧
    (∀ p1, StockPortfolio.add_stock catalog provider p nm co pd n c =
        AddResult.dataUnavailable p1 →
      p1._stocks = p._stocks ∧ p1.data = p.data ∧
      p1._stock_objs = p._stock_objs ++ [stockOf catalog nm co pd n c]) := by
  constructor
  · intro p1 h
    exact (add_stock_invalid_eq h).2
  · intro p1 h
    obtain ⟨-, -, hp1⟩ := add_stock_dataUnavailable_eq h
    rw [hp1]
    exact ⟨rfl, rfl, rfl⟩

/-- C1 counterexample: on a fresh portfolio, adding ACME under a provider
with no data fails, yet the holdings list is not the one from before the
call, so the state is not left exactly as it was. -/
theorem add_stock_not_all_or_nothing :
    StockPortfolio.add_stock catalogAll providerBad StockPortfolio.init
      "ACME" "US" "01/01/2020" 10 100 = AddResult.dataUnavailable P1bad ∧
    P1bad._stock_objs ≠ StockPortfolio.init._stock_objs := by
  constructor
  · simp [StockPortfolio.add_stock, StockPortfolio.get_stock_info,
      StockPortfolio.current_price, Stock.validate, Stock.build, catalogAll,
      providerBad, StockPortfolio.init, P1bad, stockACME]
  · simp [P1bad, StockPortfolio.init]

/-- C1 witness: the frame property of add_stock_failure_frame at the
concrete failed add of ACME. -/
theorem add_stock_failure_frame_witness :
    P1bad._stocks = StockPortfolio.init._stocks ∧
    P1bad.data = StockPortfolio.init.data ∧
    P1bad._stock_objs = StockPortfolio.init._stock_objs ++
      [stockOf catalogAll "ACME" "US" "01/01/2020" 10 100] :=
  (add_stock_failure_frame catalogAll providerBad StockPortfolio.init
    "ACME" "US" "01/01/2020" 10 100).2 P1bad
    (by simp [StockPortfolio.add_stock, StockPortfolio.get_stock_info,
      StockPortfolio.current_price, Stock.validate, Stock.build, catalogAll,
      providerBad, StockPortfolio.init, P1bad, stockACME])

/-- C2 (amended): after a completed refresh on a portfolio whose holdings
list is non-empty (or that was already in lockstep), and after a completed
add_stock on a portfolio in lockstep, the row list and the holdings list
have equal length and the row at each index is computed from the holding
at that index. -/
theorem completed_ops_rows_match (catalog : Stock → Bool) (provider : Provider)
    (p p1 : StockPortfolio) :
    (∀ calls : Nat, (p._stock_objs ≠ [] ∨ rowsMatch provider p) →
       StockPortfolio.refresh provider p = (RefreshResult.ok p1, calls) →
       p1._stocks.length = p1._stock_objs.length ∧
       ∀ i : Nat, (p1._stock_objs[i]?).bind
         (StockPortfolio.get_stock_info provider) = p1._stocks[i]?) ∧
    (∀ nm co pd n c, rowsMatch provider p →
       StockPortfolio.add_stock catalog provider p nm co pd n c = AddResult.ok p1 →
       p1._stocks.length = p1._stock_objs.length ∧
       ∀ i : Nat, (p1._stock_objs[i]?).bind
         (StockPortfolio.get_stock_info provider) = p1._stocks[i]?) := by
  constructor
  · intro calls hpre h
    rcases refresh_ok_eq h with ⟨he, hp1, -⟩ | ⟨hne, infos, hm, hp1, -⟩
    · rcases hpre with hne | hrm
      · exact absurd he hne
      · rw [rowsMatch, he, mapInfos] at hrm
        injection hrm with hrm
        subst hp1
        constructor
        · rw [he, ← hrm]
          simp
        · intro i
          rw [he, ← hrm]
          simp
    · subst hp1
      constructor
      · simpa using mapInfos_length hm
      · intro i
        simpa using mapInfos_getElem hm i
  · intro nm co pd n c hrm h
    obtain ⟨info, hg, -, hp1⟩ := add_stock_ok_eq h
    have hm : mapInfos provider
        (p._stock_objs ++ [stockOf catalog nm co pd n c]) =
        some (p._stocks ++ [info]) := mapInfos_append_single hrm hg
    subst hp1
    constructor
    · simpa using mapInfos_length hm
    · intro i
      simpa using mapInfos_getElem hm i

/-- C2 counterexample: a failed add of A (no data) followed by a completed
add of B leaves two holdings but a single row, so after that completed
add_stock call the two sequences do not have equal length. -/
theorem rows_match_fails_after_failed_add :
    StockPortfolio.add_stock catalogAll providerAB StockPortfolio.init
      "A" "US" "01/01/2020" 1 100 = AddResult.dataUnavailable P1ce ∧
    StockPortfolio.add_stock catalogAll providerAB P1ce
      "B" "US" "01/01/2020" 2 100 = AddResult.ok P2ce ∧
    P2ce._stocks.length ≠ P2ce._stock_objs.length := by
  refine ⟨?_, ?_, by simp [P2ce]⟩
  · simp [StockPortfolio.add_stock, StockPortfolio.get_stock_info,
      StockPortfolio.current_price, Stock.validate, Stock.build, catalogAll,
      providerAB, StockPortfolio.init, P1ce, stockAce]
  · simp [StockPortfolio.add_stock, StockPortfolio.get_stock_info,
      StockPortfolio.current_price, StockPortfolio.gross_current_value,
      Stock.validate, Stock.build, catalogAll, providerAB, P1ce, P2ce,
      stockAce, stockBce, infoBce]
    norm_num

/-- C2 witness: the lockstep conclusion after the completed refresh of
P1bad under providerG. -/
theorem completed_ops_rows_match_witness :
    P2w._stocks.length = P2w._stock_objs.length ∧
    (P2w._stock_objs[0]?).bind (StockPortfolio.get_stock_info providerG) =
      P2w._stocks[0]? := by
  have h := (completed_ops_rows_match catalogAll providerG P1bad P2w).1 1
    (Or.inl (by simp [P1bad]))
    (by norm_num [StockPortfolio.refresh, StockPortfolio.refresh_loop,
      StockPortfolio.get_stock_info, StockPortfolio.current_price,
      StockPortfolio.gross_current_value, providerG, P1bad, P2w, stockACME,
      infoACME])
  exact ⟨h.1, h.2 0⟩

/-- C3 (amended): a mid-refresh fetch failure makes the whole refresh call
fail and leaves the tabular snapshot (data) and the holdings list
unchanged; the internal row list _stocks, however, is left holding the
partially rebuilt prefix rather than its pre-call value. -/
theorem refresh_failure_frame (provider : Provider) (p p1 : StockPortfolio)
    (calls : Nat)
    (h : StockPortfolio.refresh provider p =
      (RefreshResult.dataUnavailable p1, calls)) :
    p1.data = p.data ∧ p1._stock_objs = p._stock_objs := by
  obtain ⟨h1, h2⟩ := refresh_fail_eq h
  exact ⟨h2, h1⟩

/-- C3 counterexample: refreshing Pab under providerAB fails on its second
holding; data is untouched but the _stocks row list has been replaced by
the rebuilt one-row prefix, so the state is not identical to before. -/
theorem refresh_failure_not_frame :
    StockPortfolio.refresh providerAB Pab =
      (RefreshResult.dataUnavailable Pab1, 2) ∧
    Pab1._stocks ≠ Pab._stocks := by
  constructor
  · simp [StockPortfolio.refresh, StockPortfolio.refresh_loop,
      StockPortfolio.get_stock_info, StockPortfolio.current_price,
      StockPortfolio.gross_current_value, providerAB, Pab, Pab1, stockAce,
      stockBce, infoBce, infoAce]
    norm_num
  · simp [Pab1, Pab]

/-- C3 witness: the frame property of refresh_failure_frame at the
concrete failed refresh of Pab. -/
theorem refresh_failure_frame_witness :
    Pab1.data = Pab.data ∧ Pab1._stock_objs = Pab._stock_objs :=
  refresh_failure_frame providerAB Pab Pab1 2
    (by simp [StockPortfolio.refresh, StockPortfolio.refresh_loop,
      StockPortfolio.get_stock_info, StockPortfolio.current_price,
      StockPortfolio.gross_current_value, providerAB, Pab, Pab1, stockAce,
      stockBce, infoBce, infoAce]
        norm_num)

/-- C4: current_price of a non-empty, chronologically ordered series is
the Close field of its last entry; on the empty series it is undefined
(an error value, none), never a sentinel. -/
theorem current_price_spec :
    (∀ (series : List PriceRow) (h : series ≠ []),
       StockPortfolio.current_price series =
         some (PriceRow.Close (series.getLast h))) ∧
    StockPortfolio.current_price [] = none := by
  constructor
  · intro series h
    rw [StockPortfolio.current_price, List.getLast?_eq_getLast series h]
    rfl
  · rfl

/-- C4 witness: current_price of the two-day series returns the Close of
its last entry. -/
theorem current_price_spec_witness :
    StockPortfolio.current_price [{ Close := 100 }, { Close := 150 }] =
      some (PriceRow.Close
        (List.getLast [{ Close := 100 }, { Close := 150 }] (by simp))) :=
  current_price_spec.1 [{ Close := 100 }, { Close := 150 }] (by simp)

/-- C5: a sequence of add_stock calls in which each call succeeds yields a
row list whose length is the number of calls, with the i-th row computed
from the i-th call (row order equals call order). -/
theorem add_all_row_order (catalog : Stock → Bool) (provider : Provider)
    (args : List AddArgs) (p1 : StockPortfolio)
    (h : add_all catalog provider StockPortfolio.init args = some p1) :
    p1._stocks.length = args.length ∧
    ∀ i : Nat, ((args[i]?).map (argStock catalog)).bind
      (StockPortfolio.get_stock_info provider) = p1._stocks[i]? := by
  obtain ⟨infos, hm, ho, hs⟩ := add_all_ok_eq h
  rw [hs]
  constructor
  · simpa [StockPortfolio.init] using mapInfos_length hm
  · intro i
    have hrow := mapInfos_getElem hm i
    rw [List.getElem?_map] at hrow
    simpa [StockPortfolio.init] using hrow

/-- C5 witness: adding ACME then B under providerG yields two rows, and
the row at index 1 is the one computed from the second call. -/
theorem add_all_row_order_witness :
    P5w._stocks.length = [argsACME, argsB].length ∧
    (([argsACME, argsB][1]?).map (argStock catalogAll)).bind
      (StockPortfolio.get_stock_info providerG) = P5w._stocks[1]? := by
  have h := add_all_row_order catalogAll providerG [argsACME, argsB] P5w
    (by simp [add_all, StockPortfolio.add_stock, StockPortfolio.get_stock_info,
      StockPortfolio.current_price, StockPortfolio.gross_current_value,
      Stock.validate, Stock.build, catalogAll, providerG, StockPortfolio.init,
      argsACME, argsB, P5w, stockACME, stockBce, infoACME, infoBce]
        norm_num)
  exact ⟨h.1, h.2 1⟩

/-- C6: gross_current_value(p, n) equals p times n for all p greater than
or equal to 0 and n greater than or equal to 0, with value 0 at the
boundaries p equal 0 or n equal 0. -/
theorem gross_current_value_spec :
    (∀ (p : Rat) (n : Int), 0 ≤ p → 0 ≤ n →
       StockPortfolio.gross_current_value p n = p * n) ∧
    (∀ n : Int, StockPortfolio.gross_current_value 0 n = 0) ∧
    (∀ p : Rat, StockPortfolio.gross_current_value p 0 = 0) := by
  refine ⟨fun p n _ _ => rfl, fun n => ?_, fun p => ?_⟩
  · simp [StockPortfolio.gross_current_value]
  · simp [StockPortfolio.gross_current_value]

/-- C6 witness: the product property at price 150 and 10 shares. -/
theorem gross_current_value_spec_witness :
    StockPortfolio.gross_current_value 150 10 = 150 * ((10 : Int) : Rat) :=
  gross_current_value_spec.1 150 10 (by norm_num) (by norm_num)

/-- C7: refresh on a portfolio with no holdings is a no-op: zero provider
calls and the state (in particular the snapshot) unchanged. -/
theorem refresh_empty_noop (provider : Provider) (p : StockPortfolio)
    (h : p._stock_objs = []) :
    StockPortfolio.refresh provider p = (RefreshResult.ok p, 0) := by
  unfold StockPortfolio.refresh
  rw [h]
  simp

/-- C7 witness: refreshing the fresh portfolio performs no provider calls
and leaves it unchanged (its snapshot stays none). -/
theorem refresh_empty_noop_witness :
    StockPortfolio.refresh providerG StockPortfolio.init =
      (RefreshResult.ok StockPortfolio.init, 0) :=
  refresh_empty_noop providerG StockPortfolio.init rfl

/-- C8: refresh is idempotent under an unchanged provider: a second
refresh right after a successful one succeeds and returns the identical
portfolio (hence the identical snapshot), with the same number of
provider calls. -/
theorem refresh_idempotent (provider : Provider) (p p1 : StockPortfolio)
    (c1 : Nat)
    (h : StockPortfolio.refresh provider p = (RefreshResult.ok p1, c1)) :
    StockPortfolio.refresh provider p1 = (RefreshResult.ok p1, c1) := by
  rcases refresh_ok_eq h with ⟨he, hp1, hc⟩ | ⟨hne, infos, hm, hp1, hc⟩
  · subst hp1
    subst hc
    unfold StockPortfolio.refresh
    rw [he]
    simp
  · subst hp1
    subst hc
    have hne1 : ({ p with _stocks := infos, data := some infos } :
        StockPortfolio)._stock_objs ≠ [] := hne
    have hm1 : mapInfos provider ({ p with _stocks := infos, data := some infos } :
        StockPortfolio)._stock_objs = some infos := hm
    rw [refresh_of_mapInfos hne1 hm1]

/-- C8 witness: refreshing P2w again under the unchanged providerG
returns P2w itself. -/
theorem refresh_idempotent_witness :
    StockPortfolio.refresh providerG P2w = (RefreshResult.ok P2w, 1) :=
  refresh_idempotent providerG P1bad P2w 1
    (by norm_num [StockPortfolio.refresh, StockPortfolio.refresh_loop,
      StockPortfolio.get_stock_info, StockPortfolio.current_price,
      StockPortfolio.gross_current_value, providerG, P1bad, P2w, stockACME,
      infoACME])

/-- C9: when add_stock fails because the fetch returns no data after
validation succeeded, the Stock has been appended to the holdings list
(and no row recorded); a subsequent successful refresh then computes a row
for it at its position and includes it in the snapshot. -/
theorem failed_add_holding_still_refreshed (catalog : Stock → Bool)
    (provider provider2 : Provider) (p p1 p2 : StockPortfolio)
    (nm co pd : String) (n : Int) (c : Rat) (calls : Nat)
    (h1 : StockPortfolio.add_stock catalog provider p nm co pd n c =
      AddResult.dataUnavailable p1)
    (h2 : StockPortfolio.refresh provider2 p1 = (RefreshResult.ok p2, calls)) :
    p1._stock_objs = p._stock_objs ++ [stockOf catalog nm co pd n c] ∧
    p1._stocks = p._stocks ∧
    p2._stocks[p._stock_objs.length]? =
      StockPortfolio.get_stock_info provider2 (stockOf catalog nm co pd n c) ∧
    p2.data = some p2._stocks := by
  obtain ⟨-, -, hp1⟩ := add_stock_dataUnavailable_eq h1
  have hobjs : p1._stock_objs = p._stock_objs ++ [stockOf catalog nm co pd n c] := by
    rw [hp1]
  have hstocks : p1._stocks = p._stocks := by
    rw [hp1]
  rcases refresh_ok_eq h2 with ⟨he, -, -⟩ | ⟨hne, infos, hm, hp2, -⟩
  · rw [hobjs] at he
    exact absurd he (by simp)
  · have hrow := mapInfos_getElem hm p._stock_objs.length
    rw [hobjs, List.getElem?_concat_length] at hrow
    subst hp2
    refine ⟨hobjs, hstocks, ?_, rfl⟩
    simpa using hrow.symm

/-- C9 witness: the failed add of ACME leaves it in the holdings list, and
the later successful refresh under providerG computes its row at index 0
and includes it in the snapshot. -/
theorem failed_add_holding_still_refreshed_witness :
    P1bad._stock_objs = StockPortfolio.init._stock_objs ++
      [stockOf catalogAll "ACME" "US" "01/01/2020" 10 100] ∧
    P1bad._stocks = StockPortfolio.init._stocks ∧
    P2w._stocks[StockPortfolio.init._stock_objs.length]? =
      StockPortfolio.get_stock_info providerG
        (stockOf catalogAll "ACME" "US" "01/01/2020" 10 100) ∧
    P2w.data = some P2w._stocks :=
  failed_add_holding_still_refreshed catalogAll providerBad providerG
    StockPortfolio.init P1bad P2w "ACME" "US" "01/01/2020" 10 100 1
    (by simp [StockPortfolio.add_stock, StockPortfolio.get_stock_info,
      StockPortfolio.current_price, Stock.validate, Stock.build, catalogAll,
      providerBad, StockPortfolio.init, P1bad, stockACME])
    (by norm_num [StockPortfolio.refresh, StockPortfolio.refresh_loop,
      StockPortfolio.get_stock_info, StockPortfolio.current_price,
      StockPortfolio.gross_current_value, providerG, P1bad, P2w, stockACME,
      infoACME])

/-- C10 (amended): a newly constructed StockPortfolio has empty holdings,
empty rows and snapshot none (not an empty table); the snapshot is
preserved by every operation other than a successful add_stock and a
completed refresh over a non-empty holdings list: a validation-rejected
add changes nothing, a data-unavailable add leaves data unchanged, a
failed refresh leaves data unchanged, and a completed refresh on empty
holdings leaves data unchanged. -/
theorem init_empty_and_data_preserved :
    (StockPortfolio.init._stocks = [] ∧ StockPortfolio.init._stock_objs = [] ∧
     StockPortfolio.init.data = none) ∧
    (∀ (catalog : Stock → Bool) (provider : Provider) (p p1 : StockPortfolio)
       (nm co pd : String) (n : Int) (c : Rat),
       StockPortfolio.add_stock catalog provider p nm co pd n c =
         AddResult.invalidStock p1 → p1 = p) ∧
    (∀ (catalog : Stock → Bool) (provider : Provider) (p p1 : StockPortfolio)
       (nm co pd : String) (n : Int) (c : Rat),
       StockPortfolio.add_stock catalog provider p nm co pd n c =
         AddResult.dataUnavailable p1 → p1.data = p.data) ∧
    (∀ (provider : Provider) (p p1 : StockPortfolio) (calls : Nat),
       StockPortfolio.refresh provider p =
         (RefreshResult.dataUnavailable p1, calls) → p1.data = p.data) ∧
    (∀ (provider : Provider) (p p1 : StockPortfolio) (calls : Nat),
       p._stock_objs = [] →
       StockPortfolio.refresh provider p = (RefreshResult.ok p1, calls) →
       p1.data = p.data) := by
  refine ⟨⟨rfl, rfl, rfl⟩, ?_, ?_, ?_, ?_⟩
  · intro catalog provider p p1 nm co pd n c h
    exact (add_stock_invalid_eq h).2
  · intro catalog provider p p1 nm co pd n c h
    obtain ⟨-, -, hp1⟩ := add_stock_dataUnavailable_eq h
    rw [hp1]
  · intro provider p p1 calls h
    exact (refresh_fail_eq h).2
  · intro provider p p1 calls he h
    rcases refresh_ok_eq h with ⟨-, hp1, -⟩ | ⟨hne, -⟩
    · rw [hp1]
    · exact absurd he hne

/-- C10 counterexample: the snapshot can become non-none without any
successful add_stock call: a failed (no data) add of ACME records the
holding with data still none, and a later successful refresh builds the
snapshot. -/
theorem data_set_without_successful_add :
    StockPortfolio.init.data = none ∧
    StockPortfolio.add_stock catalogAll providerBad StockPortfolio.init
      "ACME" "US" "01/01/2020" 10 100 = AddResult.dataUnavailable P1bad ∧
    P1bad.data = none ∧
    StockPortfolio.refresh providerG P1bad = (RefreshResult.ok P2w, 1) ∧
    P2w.data ≠ none := by
  refine ⟨rfl, ?_, rfl, ?_, by simp [P2w]⟩
  · simp [StockPortfolio.add_stock, StockPortfolio.get_stock_info,
      StockPortfolio.current_price, Stock.validate, Stock.build, catalogAll,
      providerBad, StockPortfolio.init, P1bad, stockACME]
  · norm_num [StockPortfolio.refresh, StockPortfolio.refresh_loop,
      StockPortfolio.get_stock_info, StockPortfolio.current_price,
      StockPortfolio.gross_current_value, providerG, P1bad, P2w, stockACME,
      infoACME]

/-- C10 witness: the data-preservation clause at the concrete failed add
of ACME. -/
theorem init_empty_and_data_preserved_witness :
    P1bad.data = StockPortfolio.init.data :=
  init_empty_and_data_preserved.2.2.1 catalogAll providerBad
    StockPortfolio.init P1bad "ACME" "US" "01/01/2020" 10 100
    (by simp [StockPortfolio.add_stock, StockPortfolio.get_stock_info,
      StockPortfolio.current_price, Stock.validate, Stock.build, catalogAll,
      providerBad, StockPortfolio.init, P1bad, stockACME])
